import Mathlib

/-!
Verification of the vmware-mcp-server operation pipeline.

Shallow embedding of the Python sources in src/: the permission registry
(src/auth.py), the task poller, retry policy, audit wrapper and validators
(src/utils.py), the error taxonomy (src/exceptions.py), and the concrete
operations the claims touch (src/vm_operations.py, src/resource_operations.py,
src/snapshot_operations.py).
-/

namespace VMwareMCP

/-- Error taxonomy from src/exceptions.py.  Every exception class stores a
human message; `errorCode` mirrors the `error_code` default each subclass
passes to `VMwareMCPException.__init__`.  In Python `str(e)` is the stored
message (the base class calls `super().__init__(self.message)`). -/
inductive VMErr where
  | connectionError (msg : String)
  | authenticationError (msg : String)
  | authorizationError (msg : String)
  | vmOperationError (msg : String)
  | hostOperationError (msg : String)
  | snapshotOperationError (msg : String)
  | resourceOperationError (msg : String)
  | networkOperationError (msg : String)
  | storageOperationError (msg : String)
  | validationError (msg : String)
  | timeoutError (msg : String)
  | configurationError (msg : String)
  | vmwareMCPException (msg : String)
deriving DecidableEq, Repr

/-- `str(e)`: the message stored by the exception. -/
def VMErr.message : VMErr → String
  | .connectionError m => m
  | .authenticationError m => m
  | .authorizationError m => m
  | .vmOperationError m => m
  | .hostOperationError m => m
  | .snapshotOperationError m => m
  | .resourceOperationError m => m
  | .networkOperationError m => m
  | .storageOperationError m => m
  | .validationError m => m
  | .timeoutError m => m
  | .configurationError m => m
  | .vmwareMCPException m => m

/-- The `error_code` attribute each class of src/exceptions.py sets. -/
def VMErr.errorCode : VMErr → String
  | .connectionError _ => "CONNECTION_ERROR"
  | .authenticationError _ => "AUTH_ERROR"
  | .authorizationError _ => "AUTHZ_ERROR"
  | .vmOperationError _ => "VM_OPERATION_ERROR"
  | .hostOperationError _ => "HOST_OPERATION_ERROR"
  | .snapshotOperationError _ => "SNAPSHOT_OPERATION_ERROR"
  | .resourceOperationError _ => "RESOURCE_OPERATION_ERROR"
  | .networkOperationError _ => "NETWORK_OPERATION_ERROR"
  | .storageOperationError _ => "STORAGE_OPERATION_ERROR"
  | .validationError _ => "VALIDATION_ERROR"
  | .timeoutError _ => "TIMEOUT_ERROR"
  | .configurationError _ => "CONFIG_ERROR"
  | .vmwareMCPException _ => "VMWARE_MCP_ERROR"

/-- `RBACManager.ROLES` from src/auth.py lines 156-174, verbatim. -/
def ROLES : List (String × List String) :=
  [("admin",
    ["vm:create", "vm:delete", "vm:start", "vm:stop", "vm:clone", "vm:migrate",
     "host:add", "host:remove", "host:maintenance", "host:monitor",
     "snapshot:create", "snapshot:delete", "snapshot:revert",
     "resource:allocate", "resource:monitor",
     "network:configure", "storage:configure",
     "system:configure", "system:monitor"]),
   ("operator",
    ["vm:start", "vm:stop", "vm:clone",
     "snapshot:create", "snapshot:revert",
     "host:monitor", "resource:monitor",
     "system:monitor"]),
   ("viewer",
    ["vm:list", "host:monitor", "resource:monitor", "system:monitor"])]

/-- `cls.ROLES.get(user_role, [])`: dictionary lookup with empty-list default. -/
def rolesGet (user_role : String) : List String :=
  match ROLES.lookup user_role with
  | some perms => perms
  | none => []

/-- `RBACManager.check_permission` (src/auth.py lines 176-183).  The first
argument models `settings.enable_rbac`, the global authorization switch. -/
def check_permission (enable_rbac : Bool) (user_role required_permission : String) : Bool :=
  if !enable_rbac then
    true
  else
    (rolesGet user_role).contains required_permission

/-- `validate_vm_name` (src/utils.py lines 255-262): length 1..80 and none of
the invalid characters.  Python's `char in vm_name` is character membership;
it is checked over the string's character list. -/
def invalidNameChars : List Char := ['/', '\\', ':', '*', '?', '"', '<', '>', '|']

def validate_vm_name (vm_name : String) : Bool :=
  if vm_name.length < 1 || 80 < vm_name.length then
    false
  else
    !(invalidNameChars.any (fun c => vm_name.data.contains c))

/-- C1: with authorization enabled, `check_permission role cap` is true exactly
when `cap` is listed for `role` in the permission table, and is false (not an
error) whenever `role` is absent from the table; with the global RBAC switch
off, `check_permission` is true for every role and capability. -/
theorem C1_check_permission (role cap : String) :
    check_permission false role cap = true ∧
    (check_permission true role cap = true ↔ cap ∈ rolesGet role) ∧
    (ROLES.lookup role = none → check_permission true role cap = false) := by
  refine ⟨rfl, ?_, ?_⟩
  · simp [check_permission]
  · intro h
    simp [check_permission, rolesGet, h]

/-- Witness for C1 at a role absent from the table. -/
theorem C1_check_permission_witness :
    check_permission true "ghost" "vm:list" = false :=
  (C1_check_permission "ghost" "vm:list").2.2 (by decide)

/-! ## Long-running-task poller (src/utils.py, wait_for_task_async) -/

/-- `vim.TaskInfo.State` plus a defensive extra value: the Python dispatch after
the loop has an `else` branch for any state other than success/error. -/
inductive TaskState where
  | queued
  | running
  | success
  | errorState
  | other (s : String)
deriving DecidableEq, Repr

/-- Printed form of a task state, for the "unexpected state" message. -/
def TaskState.str : TaskState → String
  | .queued => "queued"
  | .running => "running"
  | .success => "success"
  | .errorState => "error"
  | .other s => s

/-- A remote task handle.  `stateAt n` is the state `task.info.state` reads at
the poll performed `n` seconds after the wait started (the loop sleeps 1 second
between polls); `result` is `task.info.result` and `errorMsg` is
`task.info.error.msg`. -/
structure TaskModel where
  key : String
  stateAt : Nat → TaskState
  result : String
  errorMsg : String

/-- The polling loop of `wait_for_task_async` (src/utils.py lines 105-121).
While the state is running or queued the code raises `TimeoutError` once the
elapsed time exceeds `timeout`, else sleeps one second and polls again; on loop
exit it dispatches on the terminal state.  `n` is the elapsed time of the
current poll; `remaining = timeout + 1 - n` counts the polls still allowed, so
the source's raise condition `time.time() - start_time > timeout` is exactly
`remaining = 0` at every reachable iteration (the recursion is structural on
`remaining`). -/
def waitForTaskGo (task : TaskModel) (timeout : Nat) :
    Nat → Nat → Except VMErr String
  | 0, n =>
    match task.stateAt n with
    | TaskState.running | TaskState.queued =>
      Except.error (VMErr.timeoutError
        ("Task " ++ task.key ++ " timed out after " ++ toString timeout ++ "s"))
    | TaskState.success => Except.ok task.result
    | TaskState.errorState =>
      Except.error (VMErr.vmwareMCPException ("Task failed: " ++ task.errorMsg))
    | TaskState.other s =>
      Except.error (VMErr.vmwareMCPException ("Task ended with unexpected state: " ++ s))
  | r + 1, n =>
    match task.stateAt n with
    | TaskState.running | TaskState.queued => waitForTaskGo task timeout r (n + 1)
    | TaskState.success => Except.ok task.result
    | TaskState.errorState =>
      Except.error (VMErr.vmwareMCPException ("Task failed: " ++ task.errorMsg))
    | TaskState.other s =>
      Except.error (VMErr.vmwareMCPException ("Task ended with unexpected state: " ++ s))

/-- `wait_for_task_async(task, timeout)`: the loop starts with zero elapsed
time and `timeout + 1` polls before the deadline check fails. -/
def wait_for_task_async (task : TaskModel) (timeout : Nat) : Except VMErr String :=
  waitForTaskGo task timeout (timeout + 1) 0

/-- Instrumented twin of `waitForTaskGo`: the elapsed time at which the
poller's outcome is decided (the loop iteration that returns or raises). -/
def waitExitGo (task : TaskModel) : Nat → Nat → Nat
  | 0, _n => _n
  | r + 1, n =>
    match task.stateAt n with
    | TaskState.running | TaskState.queued => waitExitGo task r (n + 1)
    | _ => n

def waitExitTime (task : TaskModel) (timeout : Nat) : Nat :=
  waitExitGo task (timeout + 1) 0

/-- A state that keeps the polling loop going. -/
def TaskState.pending (s : TaskState) : Prop :=
  s = TaskState.queued ∨ s = TaskState.running

/-- One pending poll with budget left just moves to the next poll. -/
theorem waitForTaskGo_step (task : TaskModel) (timeout r n : Nat)
    (hs : (task.stateAt n).pending) :
    waitForTaskGo task timeout (r + 1) n = waitForTaskGo task timeout r (n + 1) := by
  rcases hs with h | h <;> rw [waitForTaskGo, h]

theorem waitExitGo_step (task : TaskModel) (r n : Nat)
    (hs : (task.stateAt n).pending) :
    waitExitGo task (r + 1) n = waitExitGo task r (n + 1) := by
  rcases hs with h | h <;> rw [waitExitGo, h]

/-- The loop runs unchanged across a stretch of pending polls that stays within
the deadline. -/
theorem waitForTaskGo_reach (task : TaskModel) (timeout : Nat) (N : Nat)
    (hN : N ≤ timeout + 1) (hpre : ∀ k, k < N → (task.stateAt k).pending) :
    waitForTaskGo task timeout (timeout + 1) 0 =
      waitForTaskGo task timeout (timeout + 1 - N) N := by
  suffices h : ∀ m, m ≤ N →
      waitForTaskGo task timeout (timeout + 1) 0 =
        waitForTaskGo task timeout (timeout + 1 - m) m by
    exact h N (le_refl N)
  intro m
  induction m with
  | zero => intro _; simp
  | succ m ih =>
    intro hm
    rw [ih (by omega)]
    have hrem : timeout + 1 - m = (timeout + 1 - (m + 1)) + 1 := by omega
    rw [hrem, waitForTaskGo_step task timeout _ m (hpre m (by omega))]

theorem waitExitGo_reach (task : TaskModel) (timeout : Nat) (N : Nat)
    (hN : N ≤ timeout + 1) (hpre : ∀ k, k < N → (task.stateAt k).pending) :
    waitExitGo task (timeout + 1) 0 = waitExitGo task (timeout + 1 - N) N := by
  suffices h : ∀ m, m ≤ N →
      waitExitGo task (timeout + 1) 0 = waitExitGo task (timeout + 1 - m) m by
    exact h N (le_refl N)
  intro m
  induction m with
  | zero => intro _; simp
  | succ m ih =>
    intro hm
    rw [ih (by omega)]
    have hrem : timeout + 1 - m = (timeout + 1 - (m + 1)) + 1 := by omega
    rw [hrem, waitExitGo_step task _ m (hpre m (by omega))]

/-- C2: suppose the handle is pending (queued/running) at every poll before
poll `N`.  If at poll `N`, within the deadline, the state is `success`, the
poller returns the remote-reported result payload unchanged; if it is the
terminal `error` state, the poller fails with the remote failure wrapping the
remote-reported error message; if it is any other terminal state, the poller
fails with the generic "unexpected state" remote failure.  If instead the
handle is still pending at every poll through `timeout + 1`, the poller fails
with a `TimeoutError` and the failing poll happens at elapsed time
`timeout + 1`: not before the deadline, and at most one poll interval past
it. -/
theorem C2_wait_for_task
    (task : TaskModel) (timeout N : Nat)
    (hpre : ∀ k, k < N → (task.stateAt k).pending) :
    (task.stateAt N = TaskState.success → N ≤ timeout →
      wait_for_task_async task timeout = Except.ok task.result) ∧
    (task.stateAt N = TaskState.errorState → N ≤ timeout →
      wait_for_task_async task timeout =
        Except.error (VMErr.vmwareMCPException ("Task failed: " ++ task.errorMsg))) ∧
    (∀ s, task.stateAt N = TaskState.other s → N ≤ timeout →
      wait_for_task_async task timeout =
        Except.error (VMErr.vmwareMCPException ("Task ended with unexpected state: " ++ s))) ∧
    ((∀ k, k ≤ timeout + 1 → (task.stateAt k).pending) →
      wait_for_task_async task timeout =
        Except.error (VMErr.timeoutError
          ("Task " ++ task.key ++ " timed out after " ++ toString timeout ++ "s")) ∧
      waitExitTime task timeout = timeout + 1 ∧
      timeout < waitExitTime task timeout ∧
      waitExitTime task timeout ≤ timeout + 1) := by
  refine ⟨?_, ?_, ?_, ?_⟩
  · intro hN hle
    rw [wait_for_task_async, waitForTaskGo_reach task timeout N (by omega) hpre]
    cases h : timeout + 1 - N with
    | zero => rw [waitForTaskGo, hN]
    | succ r => rw [waitForTaskGo, hN]
  · intro hN hle
    rw [wait_for_task_async, waitForTaskGo_reach task timeout N (by omega) hpre]
    cases h : timeout + 1 - N with
    | zero => rw [waitForTaskGo, hN]
    | succ r => rw [waitForTaskGo, hN]
  · intro s hN hle
    rw [wait_for_task_async, waitForTaskGo_reach task timeout N (by omega) hpre]
    cases h : timeout + 1 - N with
    | zero => rw [waitForTaskGo, hN]
    | succ r => rw [waitForTaskGo, hN]
  · intro hall
    have hres : wait_for_task_async task timeout =
        Except.error (VMErr.timeoutError
          ("Task " ++ task.key ++ " timed out after " ++ toString timeout ++ "s")) := by
      rw [wait_for_task_async,
        waitForTaskGo_reach task timeout (timeout + 1) (le_refl _)
          (fun k hk => hall k (by omega)),
        Nat.sub_self]
      rcases hall (timeout + 1) (le_refl _) with h | h <;> rw [waitForTaskGo, h]
    have hexit : waitExitTime task timeout = timeout + 1 := by
      rw [waitExitTime,
        waitExitGo_reach task timeout (timeout + 1) (le_refl _)
          (fun k hk => hall k (by omega)),
        Nat.sub_self, waitExitGo]
    exact ⟨hres, hexit, by omega, by omega⟩

/-- Witness for C2: a task that is queued, then running, then succeeds at the
third poll, against a deadline of 5. -/
def taskW : TaskModel :=
  { key := "task-w"
    stateAt := fun n => if n = 0 then TaskState.queued
      else if n = 1 then TaskState.running else TaskState.success
    result := "done"
    errorMsg := "" }

theorem C2_wait_for_task_witness :
    wait_for_task_async taskW 5 = Except.ok taskW.result :=
  (C2_wait_for_task taskW 5 2
    (by intro k hk
        interval_cases k <;> simp [taskW, TaskState.pending])).1
    (by simp [taskW]) (by omega)

/-! ## Retry policy (src/utils.py, async_retry)

The Python decorator runs `for attempt in range(max_retries + 1)`: it calls
the body; on success it returns; on failure it re-raises if this was attempt
number `max_retries` (the last one), otherwise sleeps `current_delay`,
multiplies `current_delay` by `backoff`, and tries again.  The embedding
recurses on the number of attempts still available after the current one
(`remaining = max_retries - attempt`); `remaining = 0` is the final attempt,
whose failure is propagated.  The body is a function of the attempt index; the
returned list records the sleeps performed, in order (delays are exact
rationals; the iterated products the code computes are represented exactly). -/

def asyncRetryGo (f : Nat → Except ε α) (backoff : ℚ) :
    Nat → Nat → ℚ → Except ε α × List ℚ
  | 0, attempt, _ => (f attempt, [])
  | remaining + 1, attempt, current_delay =>
    match f attempt with
    | Except.ok v => (Except.ok v, [])
    | Except.error _ =>
      let rest := asyncRetryGo f backoff remaining (attempt + 1) (current_delay * backoff)
      (rest.1, current_delay :: rest.2)

/-- `async_retry(max_retries, delay, backoff)` applied to a body `f`, returning
the final outcome together with the sleeps performed. -/
def async_retry (f : Nat → Except ε α) (max_retries : Nat) (delay backoff : ℚ) :
    Except ε α × List ℚ :=
  asyncRetryGo f backoff max_retries 0 delay

/-- Number of body executions: one per sleep, plus the attempt that ended the
loop (by succeeding or by being the last allowed). -/
def attemptsUsed (r : Except ε α × List ℚ) : Nat :=
  r.2.length + 1

theorem asyncRetryGo_ok (f : Nat → Except ε α) (backoff : ℚ) (v : α) :
    ∀ (k : Nat) (remaining attempt : Nat) (d : ℚ),
      (∀ i, i < k → ∃ e, f (attempt + i) = Except.error e) →
      f (attempt + k) = Except.ok v →
      k ≤ remaining →
      asyncRetryGo f backoff remaining attempt d =
        (Except.ok v, (List.range k).map (fun i => d * backoff ^ i)) := by
  intro k
  induction k with
  | zero =>
    intro remaining attempt d hfail hok hk
    simp only [Nat.add_zero] at hok
    cases remaining with
    | zero => simp [asyncRetryGo, hok]
    | succ r => simp [asyncRetryGo, hok]
  | succ k ih =>
    intro remaining attempt d hfail hok hk
    obtain ⟨e, he⟩ := hfail 0 (Nat.succ_pos k)
    simp only [Nat.add_zero] at he
    cases remaining with
    | zero => omega
    | succ r =>
      have hrest := ih r (attempt + 1) (d * backoff)
        (fun i hi => by
          obtain ⟨e', he'⟩ := hfail (i + 1) (by omega)
          exact ⟨e', by rw [← he']; ring_nf⟩)
        (by rw [← hok]; ring_nf)
        (by omega)
      simp only [asyncRetryGo, he, hrest, Prod.mk.injEq, true_and]
      rw [List.range_succ_eq_map, List.map_cons, List.map_map]
      simp only [List.cons.injEq]
      refine ⟨by ring, ?_⟩
      apply List.map_congr_left
      intro i _
      simp only [Function.comp_apply, Nat.succ_eq_add_one, pow_succ]
      ring

theorem asyncRetryGo_allfail (f : Nat → Except ε α) (backoff : ℚ) (g : Nat → ε)
    (hf : ∀ i, f i = Except.error (g i)) :
    ∀ (remaining attempt : Nat) (d : ℚ),
      (asyncRetryGo f backoff remaining attempt d).1 =
        Except.error (g (attempt + remaining)) := by
  intro remaining
  induction remaining with
  | zero =>
    intro attempt d
    simp [asyncRetryGo, hf attempt]
  | succ r ih =>
    intro attempt d
    have := ih (attempt + 1) (d * backoff)
    simp only [asyncRetryGo, hf attempt]
    rw [show attempt + (r + 1) = attempt + 1 + r by omega]
    exact this

/-- Sum of a geometric sleep schedule as a `Finset.range` sum. -/
theorem list_geom_sum (d b : ℚ) (k : Nat) :
    ((List.range k).map (fun i => d * b ^ i)).sum = ∑ i ∈ Finset.range k, d * b ^ i := by
  induction k with
  | zero => simp
  | succ k ih =>
    rw [List.range_succ, List.map_append, List.sum_append, Finset.sum_range_succ, ih]
    simp

/-- C3: a body that fails on its first `k` invocations and succeeds on
invocation `k + 1` is retried to success whenever the attempt budget
`max_retries + 1` (the spec's maxAttempts) is at least `k + 1`; the sleeps it
performed are exactly `delay * backoff ^ i` for `i < k`, so the total delay
slept is the geometric sum; and a body that fails on every invocation
propagates exactly the failure raised by the final attempt (attempt number
`max_retries`). -/
theorem C3_async_retry (f : Nat → Except ε α) (k max_retries : Nat)
    (delay backoff : ℚ) (v : α)
    (hfail : ∀ i, i < k → ∃ e, f i = Except.error e)
    (hok : f k = Except.ok v)
    (hk : k + 1 ≤ max_retries + 1) :
    (async_retry f max_retries delay backoff).1 = Except.ok v ∧
    (async_retry f max_retries delay backoff).2 =
      (List.range k).map (fun i => delay * backoff ^ i) ∧
    ((async_retry f max_retries delay backoff).2).sum =
      ∑ i ∈ Finset.range k, delay * backoff ^ i ∧
    attemptsUsed (async_retry f max_retries delay backoff) = k + 1 ∧
    (∀ (f₂ : Nat → Except ε α) (g : Nat → ε), (∀ i, f₂ i = Except.error (g i)) →
      (async_retry f₂ max_retries delay backoff).1 = Except.error (g max_retries)) := by
  have hmain := asyncRetryGo_ok f backoff v k max_retries 0 delay
    (fun i hi => by simpa using hfail i hi) (by simpa using hok) (by omega)
  rw [async_retry, hmain]
  refine ⟨rfl, rfl, list_geom_sum delay backoff k, ?_, ?_⟩
  · simp [attemptsUsed]
  · intro f₂ g hg
    have := asyncRetryGo_allfail f₂ backoff g hg max_retries 0 delay
    simpa [async_retry] using this

/-- Witness for C3: a body failing twice then succeeding, with max_retries 3,
initial delay 1 and backoff 2; it returns the success value after sleeping
1 and 2 time units (total 3), having executed the body three times. -/
def retryBodyW : Nat → Except String Nat :=
  fun i => if i < 2 then Except.error ("boom " ++ toString i) else Except.ok 42

theorem C3_async_retry_witness :
    (async_retry retryBodyW 3 1 2).1 = Except.ok 42 ∧
    (async_retry retryBodyW 3 1 2).2 = [1, 2] ∧
    ((async_retry retryBodyW 3 1 2).2).sum = 3 ∧
    attemptsUsed (async_retry retryBodyW 3 1 2) = 3 := by
  have h := C3_async_retry retryBodyW 2 3 1 2 42
    (fun i hi => ⟨"boom " ++ toString i, by
      interval_cases i <;> simp [retryBodyW]⟩)
    (by simp [retryBodyW])
    (by omega)
  refine ⟨h.1, ?_, ?_, h.2.2.2.1⟩
  · rw [h.2.1]
    norm_num [List.range_succ]
  · rw [h.2.2.1]
    norm_num [Finset.sum_range_succ]

/-! ## Snapshot tree search (src/snapshot_operations.py, _find_snapshot_by_name)

A `vim.vm.SnapshotTree` node carries a name, a reference to the managed
snapshot object (`snapshot.snapshot`, modelled as a numeric id), and its
`childSnapshotList`.  `_find_snapshot_by_name` walks the forest: it checks the
node's own name, then recurses into the node's children, and only then moves to
the next sibling — a pre-order depth-first search returning the first match. -/

inductive SnapTree where
  | node (name : String) (ref : Nat) (children : List SnapTree)
deriving Repr

/-- `_find_snapshot_by_name` (src/snapshot_operations.py lines 330-342). -/
def findSnapshotByName (snapshot_name : String) : List SnapTree → Option Nat
  | [] => none
  | SnapTree.node n ref children :: rest =>
    if n = snapshot_name then some ref
    else
      match findSnapshotByName snapshot_name children with
      | some r => some r
      | none => findSnapshotByName snapshot_name rest

/-- The (name, ref) pairs of the forest in pre-order: parent first, then its
whole subtree, then the later siblings. -/
def preorderNodes : List SnapTree → List (String × Nat)
  | [] => []
  | SnapTree.node n ref children :: rest =>
    (n, ref) :: (preorderNodes children ++ preorderNodes rest)

/-- Number of nodes in the forest. -/
def forestSize : List SnapTree → Nat
  | [] => 0
  | SnapTree.node _ _ children :: rest => 1 + forestSize children + forestSize rest

/-- Instrumented twin of `findSnapshotByName`: same search, also counting how
many nodes the search examined before returning. -/
def findVisited (snapshot_name : String) : List SnapTree → Option Nat × Nat
  | [] => (none, 0)
  | SnapTree.node n ref children :: rest =>
    if n = snapshot_name then (some ref, 1)
    else
      match findVisited snapshot_name children with
      | (some r, visited) => (some r, 1 + visited)
      | (none, visited) =>
        let tail := findVisited snapshot_name rest
        (tail.1, 1 + visited + tail.2)

/-- The search is exactly "first pre-order node with the requested name". -/
theorem findSnapshotByName_eq_preorder (name : String) (ts : List SnapTree) :
    findSnapshotByName name ts =
      ((preorderNodes ts).find? (fun p => p.1 = name)).map Prod.snd := by
  induction ts using findSnapshotByName.induct name with
  | case1 => simp [findSnapshotByName, preorderNodes]
  | case2 ref children rest =>
    simp [findSnapshotByName, preorderNodes]
  | case3 n ref children rest hne r hr ih =>
    rw [ih] at hr
    obtain ⟨q, hq, hsnd⟩ := Option.map_eq_some'.mp hr
    simp [findSnapshotByName, preorderNodes, hne, List.find?_append, hq, hsnd, ih]
  | case4 n ref children rest hne hnone ihc ihr =>
    rw [ihc] at hnone
    have hq : (preorderNodes children).find? (fun p => p.1 = name) = none := by
      cases h : (preorderNodes children).find? (fun p => p.1 = name) with
      | none => rfl
      | some q => rw [h] at hnone; simp at hnone
    simp [findSnapshotByName, preorderNodes, hne, List.find?_append, hq, ihr, ihc, hnone]

/-- The search misses exactly when the name labels no node of the forest. -/
theorem findSnapshotByName_none_iff (name : String) (ts : List SnapTree) :
    findSnapshotByName name ts = none ↔ name ∉ (preorderNodes ts).map Prod.fst := by
  rw [findSnapshotByName_eq_preorder]
  simp only [Option.map_eq_none', List.find?_eq_none, List.mem_map]
  constructor
  · rintro h ⟨p, hp, hfst⟩
    exact absurd (by simpa using (hfst : p.1 = name)) (by simpa using h p hp)
  · intro h p hp
    simp only [decide_eq_true_eq]
    intro hfst
    exact h ⟨p, hp, hfst⟩

/-- The instrumented search returns the same result as the source search. -/
theorem findVisited_fst (name : String) (ts : List SnapTree) :
    (findVisited name ts).1 = findSnapshotByName name ts := by
  induction ts using findVisited.induct name with
  | case1 => simp [findVisited, findSnapshotByName]
  | case2 ref children rest =>
    simp [findVisited, findSnapshotByName]
  | case3 n ref children rest hne r visited hr ih =>
    rw [findVisited, findSnapshotByName, if_neg hne, if_neg hne, hr, ← ih, hr]
  | case4 n ref children rest hne visited hnone ihc ihr =>
    rw [findVisited, findSnapshotByName, if_neg hne, if_neg hne, hnone, ← ihc, hnone]
    simpa using ihr

/-- When the search misses, it has examined every node of the forest. -/
theorem findVisited_none_size (name : String) (ts : List SnapTree)
    (h : (findVisited name ts).1 = none) :
    (findVisited name ts).2 = forestSize ts := by
  induction ts using findVisited.induct name with
  | case1 => simp [findVisited, forestSize]
  | case2 ref children rest =>
    rw [findVisited] at h
    simp at h
  | case3 n ref children rest hne r visited hr ih =>
    rw [findVisited, if_neg hne, hr] at h
    simp at h
  | case4 n ref children rest hne visited hnone ihc ihr =>
    rw [findVisited, if_neg hne, hnone] at h ⊢
    simp only at h ⊢
    have hc : (findVisited name children).2 = forestSize children := by
      apply ihc
      rw [hnone]
    have hr2 : (findVisited name rest).2 = forestSize rest := ihr h
    rw [forestSize]
    have : (findVisited name children).2 = visited := by rw [hnone]
    omega

/-! ## World model for the concrete operations

The management-plane client is modelled by the data the operations read: a
connection flag (`get_service_instance` returns `None` when down) and the VM
inventory.  The model's VM carries the attributes the verified claims inspect
(name, power state, snapshot tree) plus the task handle each submittable action
would return.  `Counts` instruments the client traffic of one body execution:
`clientCalls` counts management-plane calls (`RetrieveContent` and each
container-view lookup), `actions` counts submitted actions (the `*_Task`
invocations, which are also client calls). -/

inductive PowerState where
  | poweredOn
  | poweredOff
  | suspended
deriving DecidableEq, Repr

def PowerState.str : PowerState → String
  | .poweredOn => "poweredOn"
  | .poweredOff => "poweredOff"
  | .suspended => "suspended"

/-- `vm.snapshot` when present: the root forest and the current snapshot's
name (the claims inspect nothing else of `currentSnapshot`). -/
structure SnapshotInfo where
  rootSnapshotList : List SnapTree
  currentName : Option String

structure VMModel where
  name : String
  powerState : PowerState
  powerOnTask : TaskModel
  powerOffTask : TaskModel
  destroyTask : TaskModel
  reconfigTask : TaskModel
  snapshot : Option SnapshotInfo
  removeSnapshotTask : Nat → Bool → TaskModel

structure ServiceEnv where
  connected : Bool
  vms : List VMModel
  enable_rbac : Bool
  operation_timeout : Nat

structure Counts where
  clientCalls : Nat
  actions : Nat
deriving DecidableEq, Repr

/-- `get_vm_by_name` (src/utils.py lines 124-140): iterate the container view,
return the first VM whose name matches. -/
def get_vm_by_name (vms : List VMModel) (vm_name : String) : Option VMModel :=
  vms.find? (fun vm => vm.name == vm_name)

/-- `format_vm_info` (src/utils.py lines 213-231), restricted to the
attributes the model's VM carries. -/
def format_vm_info (vm : VMModel) : List (String × String) :=
  [("name", vm.name), ("power_state", vm.powerState.str)]

/-! ## Audit wrapper (src/utils.py, audit_log)

`audit_log(operation, resource_type)` records one entry per invocation: on
success `{operation, resource_type, "success", duration, timestamp}` and the
result is returned; on failure `{operation, resource_type, "failed", error:
str(e), duration, timestamp}` and the failure is re-raised.  The entry goes to
a Python `logging` logger; the logging module swallows handler errors
(`Handler.handleError`), so emission cannot raise into the wrapper — the model
gives the sink a success flag which the wrapper ignores.  Wall-clock time is
supplied as the start time and the elapsed duration of the wrapped body. -/

structure AuditRecord where
  operation : String
  resource_type : Option String
  status : String
  error : Option String
  duration : ℚ
  timestamp : ℚ
deriving DecidableEq, Repr

def audit_log_wrap (operation : String) (resource_type : Option String)
    (sink : AuditRecord → Bool) (start_time elapsed : ℚ)
    (r : Except VMErr β) : Except VMErr β × List AuditRecord :=
  match r with
  | Except.ok v =>
    let entry : AuditRecord :=
      { operation := operation, resource_type := resource_type,
        status := "success", error := none,
        duration := elapsed, timestamp := start_time + elapsed }
    let _ := sink entry
    (Except.ok v, [entry])
  | Except.error e =>
    let entry : AuditRecord :=
      { operation := operation, resource_type := resource_type,
        status := "failed", error := some e.message,
        duration := elapsed, timestamp := start_time + elapsed }
    let _ := sink entry
    (Except.error e, [entry])

/-- `timeout_handler` (src/utils.py lines 47-61) wraps the body in
`asyncio.wait_for`.  The embedded bodies account for elapsed time through the
poller's own deadline; the wall-clock cancellation race of `asyncio.wait_for`
is a real-time effect outside this sequential model, so the wrapper passes the
body's outcome through unchanged (it only converts `asyncio.TimeoutError` —
which no embedded body raises — into the taxonomy's `TimeoutError`). -/
def timeout_handler_wrap (r : Except VMErr β) : Except VMErr β := r

/-! ## VM operations (src/vm_operations.py) -/

/-- The `except Exception` clause of `start_vm`: any failure raised inside the
`try` block — including the `VMOperationError`s the block itself raises — is
re-raised as `VMOperationError("Failed to start VM: " + str(e))`. -/
def wrapStartErr (e : VMErr) : VMErr :=
  VMErr.vmOperationError ("Failed to start VM: " ++ e.message)

/-- Body of `start_vm` (src/vm_operations.py lines 103-133): the innermost
function under the decorator stack.  Authorization and name validation happen
before the `try` block, so those failures are not wrapped. -/
def start_vm_inner (env : ServiceEnv) (vm_name user_role : String) :
    Except VMErr (List (String × String)) × Counts :=
  if !check_permission env.enable_rbac user_role "vm:start" then
    (Except.error (VMErr.authorizationError "Insufficient permissions to start VM"),
     ⟨0, 0⟩)
  else if !validate_vm_name vm_name then
    (Except.error (VMErr.validationError ("Invalid VM name: " ++ vm_name)), ⟨0, 0⟩)
  else if !env.connected then
    (Except.error (wrapStartErr (VMErr.vmOperationError "No active VMware connection")),
     ⟨0, 0⟩)
  else
    match get_vm_by_name env.vms vm_name with
    | none =>
      (Except.error (wrapStartErr
        (VMErr.vmOperationError ("VM '" ++ vm_name ++ "' not found"))), ⟨2, 0⟩)
    | some vm =>
      if vm.powerState = PowerState.poweredOn then
        (Except.ok [("status", "already_running"), ("vm_name", vm_name)], ⟨2, 0⟩)
      else
        match wait_for_task_async vm.powerOnTask env.operation_timeout with
        | Except.ok r =>
          (Except.ok [("status", "started"), ("vm_name", vm_name), ("task_result", r)],
           ⟨3, 1⟩)
        | Except.error e => (Except.error (wrapStartErr e), ⟨3, 1⟩)

/-- `start_vm` under its `async_retry(max_retries=2)` decorator (delay 1.0,
backoff 2.0), which re-invokes the `timeout_handler`-wrapped body on every
`Exception`.  The body is deterministic in the model (the environment is read
repeatedly but not mutated between attempts). -/
def start_vm_retry (env : ServiceEnv) (vm_name user_role : String) :
    Except VMErr (List (String × String)) × List ℚ :=
  async_retry (fun _ => timeout_handler_wrap (start_vm_inner env vm_name user_role).1) 2 1 2

/-- `start_vm` under the full decorator stack
`audit_log("start_vm","vm")` > `async_retry(max_retries=2)` > `timeout_handler()`. -/
def start_vm_full (env : ServiceEnv) (vm_name user_role : String)
    (sink : AuditRecord → Bool) (start_time elapsed : ℚ) :
    Except VMErr (List (String × String)) × List AuditRecord :=
  audit_log_wrap "start_vm" (some "vm") sink start_time elapsed
    (start_vm_retry env vm_name user_role).1

/-- The `except Exception` clause of `delete_vm`. -/
def wrapDeleteErr (e : VMErr) : VMErr :=
  VMErr.vmOperationError ("Failed to delete VM: " ++ e.message)

/-- Body of `delete_vm` (src/vm_operations.py lines 288-321): if the VM is
powered on, an implicit power-off is submitted and awaited before the destroy
action; any failure inside the `try` block is wrapped. -/
def delete_vm_inner (env : ServiceEnv) (vm_name user_role : String) :
    Except VMErr (List (String × String)) × Counts :=
  if !check_permission env.enable_rbac user_role "vm:delete" then
    (Except.error (VMErr.authorizationError "Insufficient permissions to delete VM"),
     ⟨0, 0⟩)
  else if !validate_vm_name vm_name then
    (Except.error (VMErr.validationError ("Invalid VM name: " ++ vm_name)), ⟨0, 0⟩)
  else if !env.connected then
    (Except.error (wrapDeleteErr (VMErr.vmOperationError "No active VMware connection")),
     ⟨0, 0⟩)
  else
    match get_vm_by_name env.vms vm_name with
    | none =>
      (Except.error (wrapDeleteErr
        (VMErr.vmOperationError ("VM '" ++ vm_name ++ "' not found"))), ⟨2, 0⟩)
    | some vm =>
      if vm.powerState = PowerState.poweredOn then
        match wait_for_task_async vm.powerOffTask env.operation_timeout with
        | Except.error e => (Except.error (wrapDeleteErr e), ⟨3, 1⟩)
        | Except.ok _ =>
          match wait_for_task_async vm.destroyTask env.operation_timeout with
          | Except.ok r =>
            (Except.ok [("status", "deleted"), ("vm_name", vm_name), ("task_result", r)],
             ⟨4, 2⟩)
          | Except.error e => (Except.error (wrapDeleteErr e), ⟨4, 2⟩)
      else
        match wait_for_task_async vm.destroyTask env.operation_timeout with
        | Except.ok r =>
          (Except.ok [("status", "deleted"), ("vm_name", vm_name), ("task_result", r)],
           ⟨3, 1⟩)
        | Except.error e => (Except.error (wrapDeleteErr e), ⟨3, 1⟩)

/-- `delete_vm` under its full decorator stack: `audit_log("delete_vm","vm")` >
`timeout_handler()` — deliberately no retry decorator. -/
def delete_vm_full (env : ServiceEnv) (vm_name user_role : String)
    (sink : AuditRecord → Bool) (start_time elapsed : ℚ) :
    Except VMErr (List (String × String)) × List AuditRecord :=
  audit_log_wrap "delete_vm" (some "vm") sink start_time elapsed
    (timeout_handler_wrap (delete_vm_inner env vm_name user_role).1)

/-- Body of `list_vms` (src/vm_operations.py lines 25-48). -/
def list_vms_inner (env : ServiceEnv) (user_role : String) :
    Except VMErr (List (List (String × String))) × Counts :=
  if !check_permission env.enable_rbac user_role "vm:list" then
    (Except.error (VMErr.authorizationError "Insufficient permissions to list VMs"),
     ⟨0, 0⟩)
  else if !env.connected then
    (Except.error (VMErr.vmOperationError
      "Failed to list VMs: No active VMware connection"), ⟨0, 0⟩)
  else
    (Except.ok (env.vms.map format_vm_info), ⟨2, 0⟩)

/-- Body of `get_vm_details` (src/vm_operations.py lines 52-98), restricted to
the modelled VM attributes.  Its authorization gate is `vm:list`. -/
def get_vm_details_inner (env : ServiceEnv) (vm_name user_role : String) :
    Except VMErr (List (String × String)) × Counts :=
  if !check_permission env.enable_rbac user_role "vm:list" then
    (Except.error (VMErr.authorizationError "Insufficient permissions to view VM details"),
     ⟨0, 0⟩)
  else if !validate_vm_name vm_name then
    (Except.error (VMErr.validationError ("Invalid VM name: " ++ vm_name)), ⟨0, 0⟩)
  else if !env.connected then
    (Except.error (VMErr.vmOperationError
      "Failed to get VM details: No active VMware connection"), ⟨0, 0⟩)
  else
    match get_vm_by_name env.vms vm_name with
    | none =>
      (Except.error (VMErr.vmOperationError
        ("Failed to get VM details: VM '" ++ vm_name ++ "' not found")), ⟨2, 0⟩)
    | some vm => (Except.ok (format_vm_info vm), ⟨2, 0⟩)

/-! ## Resource operations (src/resource_operations.py) -/

/-- The `except Exception` clause of `modify_vm_resources`. -/
def wrapModifyErr (e : VMErr) : VMErr :=
  VMErr.resourceOperationError ("Failed to modify VM resources: " ++ e.message)

/-- `cpu_count is not None and (cpu_count < 1 or cpu_count > 128)`. -/
def cpuOutOfRange : Option Int → Bool
  | some c => c < 1 || 128 < c
  | none => false

/-- `memory_mb is not None and (memory_mb < 4 or memory_mb > 1048576)`. -/
def memoryOutOfRange : Option Int → Bool
  | some m => m < 4 || 1048576 < m
  | none => false

/-- The `changes_made` list built by the body. -/
def changesMade (cpu_count memory_mb : Option Int) : List String :=
  (match cpu_count with
   | some c => ["CPU count: " ++ toString c]
   | none => []) ++
  (match memory_mb with
   | some m => ["Memory: " ++ toString m ++ " MB"]
   | none => [])

/-- Body of `modify_vm_resources` (src/resource_operations.py lines 112-171).
The VM is resolved via the client (`RetrieveContent` plus a container-view
lookup) before the `changes_made` short-circuit is evaluated; only the
`ReconfigVM_Task` submission is skipped when no change was requested. -/
def modify_vm_resources_inner (env : ServiceEnv) (vm_name : String)
    (cpu_count memory_mb : Option Int) (user_role : String) :
    Except VMErr (List (String × String)) × Counts :=
  if !check_permission env.enable_rbac user_role "resource:allocate" then
    (Except.error (VMErr.authorizationError
      "Insufficient permissions to modify VM resources"), ⟨0, 0⟩)
  else if !validate_vm_name vm_name then
    (Except.error (VMErr.validationError ("Invalid VM name: " ++ vm_name)), ⟨0, 0⟩)
  else if cpuOutOfRange cpu_count then
    (Except.error (VMErr.validationError "CPU count must be between 1 and 128"), ⟨0, 0⟩)
  else if memoryOutOfRange memory_mb then
    (Except.error (VMErr.validationError "Memory must be between 4 MB and 1 TB"), ⟨0, 0⟩)
  else if !env.connected then
    (Except.error (wrapModifyErr
      (VMErr.resourceOperationError "No active VMware connection")), ⟨0, 0⟩)
  else
    match get_vm_by_name env.vms vm_name with
    | none =>
      (Except.error (wrapModifyErr
        (VMErr.resourceOperationError ("VM '" ++ vm_name ++ "' not found"))), ⟨2, 0⟩)
    | some vm =>
      if changesMade cpu_count memory_mb = [] then
        (Except.ok [("status", "no_changes"), ("vm_name", vm_name),
          ("message", "No resource changes specified")], ⟨2, 0⟩)
      else
        match wait_for_task_async vm.reconfigTask env.operation_timeout with
        | Except.ok r =>
          (Except.ok [("status", "modified"), ("vm_name", vm_name),
            ("changes", String.intercalate ", " (changesMade cpu_count memory_mb)),
            ("task_result", r)], ⟨3, 1⟩)
        | Except.error e => (Except.error (wrapModifyErr e), ⟨3, 1⟩)

/-! ## Snapshot operations (src/snapshot_operations.py) -/

/-- The `except Exception` clause of `delete_snapshot`. -/
def wrapDeleteSnapErr (e : VMErr) : VMErr :=
  VMErr.snapshotOperationError ("Failed to delete snapshot: " ++ e.message)

/-- Body of `delete_snapshot` (src/snapshot_operations.py lines 178-221): the
named node is located with `_find_snapshot_by_name`; a miss raises
`SnapshotOperationError("Snapshot '...' not found")`, which the catch-all
re-wraps.  On a hit, `RemoveSnapshot_Task(removeChildren=...)` is submitted and
awaited with the decorator's 600-second deadline. -/
def delete_snapshot_inner (env : ServiceEnv) (vm_name snapshot_name : String)
    (remove_children : Bool) (user_role : String) :
    Except VMErr (List (String × String)) × Counts :=
  if !check_permission env.enable_rbac user_role "snapshot:delete" then
    (Except.error (VMErr.authorizationError
      "Insufficient permissions to delete snapshot"), ⟨0, 0⟩)
  else if !validate_vm_name vm_name then
    (Except.error (VMErr.validationError ("Invalid VM name: " ++ vm_name)), ⟨0, 0⟩)
  else if !env.connected then
    (Except.error (wrapDeleteSnapErr
      (VMErr.snapshotOperationError "No active VMware connection")), ⟨0, 0⟩)
  else
    match get_vm_by_name env.vms vm_name with
    | none =>
      (Except.error (wrapDeleteSnapErr
        (VMErr.snapshotOperationError ("VM '" ++ vm_name ++ "' not found"))), ⟨2, 0⟩)
    | some vm =>
      match vm.snapshot with
      | none =>
        (Except.error (wrapDeleteSnapErr
          (VMErr.snapshotOperationError ("VM '" ++ vm_name ++ "' has no snapshots"))),
         ⟨2, 0⟩)
      | some info =>
        match findSnapshotByName snapshot_name info.rootSnapshotList with
        | none =>
          (Except.error (wrapDeleteSnapErr
            (VMErr.snapshotOperationError
              ("Snapshot '" ++ snapshot_name ++ "' not found"))), ⟨2, 0⟩)
        | some ref =>
          match wait_for_task_async (vm.removeSnapshotTask ref remove_children) 600 with
          | Except.ok r =>
            (Except.ok [("status", "deleted"), ("vm_name", vm_name),
              ("snapshot_name", snapshot_name),
              ("remove_children", if remove_children then "True" else "False"),
              ("task_result", r)], ⟨3, 1⟩)
          | Except.error e => (Except.error (wrapDeleteSnapErr e), ⟨3, 1⟩)

/-- Result shape of `list_snapshots`: the VM name, the formatted snapshot
forest (represented by the tree itself; formatting only re-labels nodes), and
the current snapshot's name when one exists. -/
structure ListSnapshotsResult where
  vm_name : String
  snapshots : List SnapTree
  current_snapshot : Option String

/-- Body of `list_snapshots` (src/snapshot_operations.py lines 82-128).  Its
authorization gate is `vm:list`, like the VM read operations. -/
def list_snapshots_inner (env : ServiceEnv) (vm_name user_role : String) :
    Except VMErr ListSnapshotsResult × Counts :=
  if !check_permission env.enable_rbac user_role "vm:list" then
    (Except.error (VMErr.authorizationError
      "Insufficient permissions to list snapshots"), ⟨0, 0⟩)
  else if !validate_vm_name vm_name then
    (Except.error (VMErr.validationError ("Invalid VM name: " ++ vm_name)), ⟨0, 0⟩)
  else if !env.connected then
    (Except.error (VMErr.snapshotOperationError
      "Failed to list snapshots: No active VMware connection"), ⟨0, 0⟩)
  else
    match get_vm_by_name env.vms vm_name with
    | none =>
      (Except.error (VMErr.snapshotOperationError
        ("Failed to list snapshots: VM '" ++ vm_name ++ "' not found")), ⟨2, 0⟩)
    | some vm =>
      match vm.snapshot with
      | none => (Except.ok ⟨vm_name, [], none⟩, ⟨2, 0⟩)
      | some info =>
        (Except.ok ⟨vm_name, info.rootSnapshotList, info.currentName⟩, ⟨2, 0⟩)

/-! ## Concrete fixtures for witnesses and counterexamples -/

/-- A task that reports success at the very first poll. -/
def taskOk (k r : String) : TaskModel :=
  { key := k, stateAt := fun _ => TaskState.success, result := r, errorMsg := "" }

/-- A task that never leaves the running state. -/
def taskStuck (k : String) : TaskModel :=
  { key := k, stateAt := fun _ => TaskState.running, result := "", errorMsg := "" }

/-- A snapshot forest with a duplicate name across subtrees. -/
def snapForestW : List SnapTree :=
  [SnapTree.node "base" 1
    [SnapTree.node "pre-upgrade" 2 [SnapTree.node "post-upgrade" 3 []],
     SnapTree.node "pre-upgrade" 4 []],
   SnapTree.node "nightly" 5 []]

def vmFix (ps : PowerState) : VMModel :=
  { name := "vm1"
    powerState := ps
    powerOnTask := taskOk "task-on" "powered on"
    powerOffTask := taskOk "task-off" "powered off"
    destroyTask := taskStuck "task-del"
    reconfigTask := taskOk "task-cfg" "reconfigured"
    snapshot := some ⟨snapForestW, some "base"⟩
    removeSnapshotTask := fun _ _ => taskOk "task-rm" "removed" }

def envOn : ServiceEnv :=
  { connected := true, vms := [vmFix PowerState.poweredOn],
    enable_rbac := true, operation_timeout := 5 }

def envOff : ServiceEnv :=
  { connected := true, vms := [vmFix PowerState.poweredOff],
    enable_rbac := true, operation_timeout := 5 }

/-! ## C4 -/

/-- C4 counterexample: with authorization enabled, the decorated start_vm
called with role "viewer" (which lacks vm:start) surfaces the authorization
failure only after the retry policy has executed the body three times, with
two backoff sleeps in between — the failure is retried, and the body is
re-executed, contrary to the claim. -/
theorem C4_counterexample :
    (start_vm_retry envOff "vm1" "viewer").1 =
      Except.error (VMErr.authorizationError "Insufficient permissions to start VM") ∧
    attemptsUsed (start_vm_retry envOff "vm1" "viewer") = 3 ∧
    (start_vm_retry envOff "vm1" "viewer").2.length = 2 := by
  exact ⟨rfl, rfl, rfl⟩

/-- C4 (amended): the retry decorator on start_vm catches every exception, so
an authorization or validation failure raised by the body is retried like any
other failure: the body runs max_retries + 1 = 3 times and the same typed
failure is then surfaced, unchanged in kind and message (the body's catch-all
does not wrap it, but the retry policy does not exempt it either). -/
theorem C4_start_vm_auth_validation_retried (env : ServiceEnv)
    (vm_name user_role : String) :
    (check_permission env.enable_rbac user_role "vm:start" = false →
      (start_vm_retry env vm_name user_role).1 =
        Except.error (VMErr.authorizationError "Insufficient permissions to start VM") ∧
      attemptsUsed (start_vm_retry env vm_name user_role) = 3) ∧
    (check_permission env.enable_rbac user_role "vm:start" = true →
      validate_vm_name vm_name = false →
      (start_vm_retry env vm_name user_role).1 =
        Except.error (VMErr.validationError ("Invalid VM name: " ++ vm_name)) ∧
      attemptsUsed (start_vm_retry env vm_name user_role) = 3) := by
  constructor
  · intro h
    have hinner : (start_vm_inner env vm_name user_role).1 =
        Except.error (VMErr.authorizationError "Insufficient permissions to start VM") := by
      simp [start_vm_inner, h]
    constructor
    · simp [start_vm_retry, async_retry, asyncRetryGo, timeout_handler_wrap, hinner]
    · simp [attemptsUsed, start_vm_retry, async_retry, asyncRetryGo,
        timeout_handler_wrap, hinner]
  · intro h hv
    have hinner : (start_vm_inner env vm_name user_role).1 =
        Except.error (VMErr.validationError ("Invalid VM name: " ++ vm_name)) := by
      simp [start_vm_inner, h, hv]
    constructor
    · simp [start_vm_retry, async_retry, asyncRetryGo, timeout_handler_wrap, hinner]
    · simp [attemptsUsed, start_vm_retry, async_retry, asyncRetryGo,
        timeout_handler_wrap, hinner]

/-- Witness for the amended C4: an invalid name under role admin is also
retried three times before the validation failure surfaces. -/
theorem C4_start_vm_auth_validation_retried_witness :
    (start_vm_retry envOff "bad/name" "admin").1 =
      Except.error (VMErr.validationError ("Invalid VM name: " ++ "bad/name")) ∧
    attemptsUsed (start_vm_retry envOff "bad/name" "admin") = 3 :=
  (C4_start_vm_auth_validation_retried envOff "bad/name" "admin").2
    (by decide) (by decide)

/-! ## C5 -/

/-- C5 counterexample: with the destroy task stuck in the running state, the
TimeoutError raised by the poller inside delete_vm's body reaches the dispatch
front as a VMOperationError with a prefixed message: both the kind (the
error_code) and the content changed on the way out. -/
theorem C5_counterexample :
    (delete_vm_full envOff "vm1" "admin" (fun _ => true) 0 7).1 =
      Except.error (VMErr.vmOperationError
        "Failed to delete VM: Task task-del timed out after 5s") ∧
    VMErr.errorCode (VMErr.vmOperationError
        "Failed to delete VM: Task task-del timed out after 5s") ≠
      VMErr.errorCode (VMErr.timeoutError "Task task-del timed out after 5s") := by
  exact ⟨rfl, by decide⟩

/-- C5 (amended): the audit and timeout wrappers return the operation's
outcome unchanged, and failures raised before the try block (authorization,
validation) reach the dispatch front unchanged in kind and content — but a
typed failure raised inside the body, in particular a poller timeout while
awaiting the destroy task, is re-raised by the body's catch-all as
VMOperationError with the message prefixed by "Failed to delete VM: ". -/
theorem C5_delete_vm_propagation (env : ServiceEnv) (vm_name user_role : String)
    (sink : AuditRecord → Bool) (t d : ℚ) :
    ((delete_vm_full env vm_name user_role sink t d).1 =
      (delete_vm_inner env vm_name user_role).1) ∧
    (check_permission env.enable_rbac user_role "vm:delete" = false →
      (delete_vm_full env vm_name user_role sink t d).1 =
        Except.error (VMErr.authorizationError "Insufficient permissions to delete VM")) ∧
    (∀ vm m, check_permission env.enable_rbac user_role "vm:delete" = true →
      validate_vm_name vm_name = true →
      env.connected = true →
      get_vm_by_name env.vms vm_name = some vm →
      vm.powerState ≠ PowerState.poweredOn →
      wait_for_task_async vm.destroyTask env.operation_timeout =
        Except.error (VMErr.timeoutError m) →
      (delete_vm_full env vm_name user_role sink t d).1 =
        Except.error (VMErr.vmOperationError ("Failed to delete VM: " ++ m))) := by
  have hpass : (delete_vm_full env vm_name user_role sink t d).1 =
      (delete_vm_inner env vm_name user_role).1 := by
    cases h : (delete_vm_inner env vm_name user_role).1 <;>
      simp [delete_vm_full, audit_log_wrap, timeout_handler_wrap, h]
  refine ⟨hpass, ?_, ?_⟩
  · intro h
    rw [hpass]
    simp [delete_vm_inner, h]
  · intro vm m hperm hname hconn hfind hps hwait
    rw [hpass]
    simp [delete_vm_inner, hperm, hname, hconn, hfind, hps, hwait,
      wrapDeleteErr, VMErr.message]

/-- Witness for the amended C5 at the concrete stuck-destroy environment. -/
theorem C5_delete_vm_propagation_witness :
    (delete_vm_full envOff "vm1" "admin" (fun _ => false) 0 7).1 =
      Except.error (VMErr.vmOperationError
        ("Failed to delete VM: " ++ "Task task-del timed out after 5s")) :=
  (C5_delete_vm_propagation envOff "vm1" "admin" (fun _ => false) 0 7).2.2
    (vmFix PowerState.poweredOff) "Task task-del timed out after 5s"
    (by decide) (by decide) rfl rfl (by decide) rfl

/-! ## C6 -/

/-- C6 counterexample: an authorized no-cpu/no-memory resource-modify call does
return the "no_changes" success, but it makes two management-plane client
calls (content retrieval and the VM lookup) before short-circuiting — not
zero. -/
theorem C6_counterexample :
    (modify_vm_resources_inner envOn "vm1" none none "admin").1 =
      Except.ok [("status", "no_changes"), ("vm_name", "vm1"),
        ("message", "No resource changes specified")] ∧
    (modify_vm_resources_inner envOn "vm1" none none "admin").2.clientCalls = 2 ∧
    (modify_vm_resources_inner envOn "vm1" none none "admin").2.clientCalls ≠ 0 := by
  exact ⟨rfl, rfl, by decide⟩

/-- C6 (amended): an authorized resource-modify call with neither cpu nor
memory, against a live connection and an existing VM, returns the "no_changes"
success and submits zero actions to the management plane; it does, however,
contact the client twice to resolve the VM before short-circuiting. -/
theorem C6_modify_no_changes (env : ServiceEnv) (vm_name user_role : String)
    (vm : VMModel)
    (hperm : check_permission env.enable_rbac user_role "resource:allocate" = true)
    (hname : validate_vm_name vm_name = true)
    (hconn : env.connected = true)
    (hfind : get_vm_by_name env.vms vm_name = some vm) :
    (modify_vm_resources_inner env vm_name none none user_role).1 =
      Except.ok [("status", "no_changes"), ("vm_name", vm_name),
        ("message", "No resource changes specified")] ∧
    (modify_vm_resources_inner env vm_name none none user_role).2 = ⟨2, 0⟩ := by
  constructor <;>
    simp [modify_vm_resources_inner, hperm, hname, hconn, hfind,
      cpuOutOfRange, memoryOutOfRange, changesMade]

/-- Witness for the amended C6. -/
theorem C6_modify_no_changes_witness :
    (modify_vm_resources_inner envOn "vm1" none none "admin").2 = ⟨2, 0⟩ :=
  (C6_modify_no_changes envOn "vm1" "admin" (vmFix PowerState.poweredOn)
    (by decide) (by decide) rfl rfl).2

/-! ## C7 -/

/-- C7: an authorized, validly-named Start on a VM already powered on returns
the "already_running" no-op success with zero submitted actions, on the first
retry attempt; on a VM in any other power state the body submits exactly one
power-on action and its outcome is the poller's outcome on that task (wrapped
by the body's catch-all on failure). -/
theorem C7_start_vm_idempotent (env : ServiceEnv) (vm_name user_role : String)
    (vm : VMModel)
    (hperm : check_permission env.enable_rbac user_role "vm:start" = true)
    (hname : validate_vm_name vm_name = true)
    (hconn : env.connected = true)
    (hfind : get_vm_by_name env.vms vm_name = some vm) :
    (vm.powerState = PowerState.poweredOn →
      (start_vm_retry env vm_name user_role).1 =
        Except.ok [("status", "already_running"), ("vm_name", vm_name)] ∧
      (start_vm_inner env vm_name user_role).2.actions = 0 ∧
      attemptsUsed (start_vm_retry env vm_name user_role) = 1) ∧
    (vm.powerState ≠ PowerState.poweredOn →
      (start_vm_inner env vm_name user_role).2.actions = 1 ∧
      (start_vm_inner env vm_name user_role).1 =
        (match wait_for_task_async vm.powerOnTask env.operation_timeout with
         | Except.ok r =>
           Except.ok [("status", "started"), ("vm_name", vm_name), ("task_result", r)]
         | Except.error e => Except.error (wrapStartErr e))) := by
  constructor
  · intro hps
    have hinner : start_vm_inner env vm_name user_role =
        (Except.ok [("status", "already_running"), ("vm_name", vm_name)], ⟨2, 0⟩) := by
      simp [start_vm_inner, hperm, hname, hconn, hfind, hps]
    refine ⟨?_, ?_, ?_⟩
    · simp [start_vm_retry, async_retry, asyncRetryGo, timeout_handler_wrap, hinner]
    · simp [hinner]
    · simp [attemptsUsed, start_vm_retry, async_retry, asyncRetryGo,
        timeout_handler_wrap, hinner]
  · intro hps
    constructor
    · simp only [start_vm_inner, hperm, hname, hconn, hfind]
      simp only [Bool.not_true, Bool.false_eq_true, if_false, if_neg hps]
      cases wait_for_task_async vm.powerOnTask env.operation_timeout <;> simp
    · simp only [start_vm_inner, hperm, hname, hconn, hfind]
      simp only [Bool.not_true, Bool.false_eq_true, if_false, if_neg hps]
      cases wait_for_task_async vm.powerOnTask env.operation_timeout <;> simp

/-- Witness for C7 at a powered-on VM. -/
theorem C7_start_vm_idempotent_witness :
    (start_vm_retry envOn "vm1" "operator").1 =
      Except.ok [("status", "already_running"), ("vm_name", "vm1")] ∧
    (start_vm_inner envOn "vm1" "operator").2.actions = 0 ∧
    attemptsUsed (start_vm_retry envOn "vm1" "operator") = 1 :=
  ((C7_start_vm_idempotent envOn "vm1" "operator" (vmFix PowerState.poweredOn)
    (by decide) (by decide) rfl rfl).1) rfl

/-! ## C8 -/

/-- C8: the snapshot lookup used by revert and delete returns the snapshot
reference of the first matching node in pre-order (parent before children,
earlier siblings with their whole subtrees before later siblings); it returns
nothing exactly when the name labels no node of the tree; the search then has
examined every node; and delete_snapshot on an absent name fails with the
snapshot-not-found failure. -/
theorem C8_find_snapshot (snapshot_name : String) (ts : List SnapTree) :
    (findSnapshotByName snapshot_name ts =
      ((preorderNodes ts).find? (fun p => p.1 = snapshot_name)).map Prod.snd) ∧
    (findSnapshotByName snapshot_name ts = none ↔
      snapshot_name ∉ (preorderNodes ts).map Prod.fst) ∧
    ((findVisited snapshot_name ts).1 = findSnapshotByName snapshot_name ts) ∧
    (findSnapshotByName snapshot_name ts = none →
      (findVisited snapshot_name ts).2 = forestSize ts) ∧
    (∀ (env : ServiceEnv) (vm_name user_role : String) (remove_children : Bool)
        (vm : VMModel) (info : SnapshotInfo),
      check_permission env.enable_rbac user_role "snapshot:delete" = true →
      validate_vm_name vm_name = true →
      env.connected = true →
      get_vm_by_name env.vms vm_name = some vm →
      vm.snapshot = some info →
      findSnapshotByName snapshot_name info.rootSnapshotList = none →
      (delete_snapshot_inner env vm_name snapshot_name remove_children user_role).1 =
        Except.error (VMErr.snapshotOperationError
          ("Failed to delete snapshot: " ++
            ("Snapshot '" ++ snapshot_name ++ "' not found")))) := by
  refine ⟨findSnapshotByName_eq_preorder snapshot_name ts,
    findSnapshotByName_none_iff snapshot_name ts,
    findVisited_fst snapshot_name ts,
    ?_, ?_⟩
  · intro h
    apply findVisited_none_size
    rw [findVisited_fst, h]
  · intro env vm_name user_role remove_children vm info
      hperm hname hconn hfind hsnap hmiss
    simp [delete_snapshot_inner, hperm, hname, hconn, hfind, hsnap, hmiss,
      wrapDeleteSnapErr, VMErr.message]

/-- Witness for C8: deleting an absent snapshot name on the concrete fixture
fails with the not-found failure, the lookup having visited all 5 nodes. -/
theorem C8_find_snapshot_witness :
    (delete_snapshot_inner envOn "vm1" "missing" false "admin").1 =
      Except.error (VMErr.snapshotOperationError
        ("Failed to delete snapshot: " ++
          ("Snapshot '" ++ "missing" ++ "' not found"))) ∧
    (findVisited "missing" snapForestW).2 = forestSize snapForestW :=
  ⟨(C8_find_snapshot "missing" snapForestW).2.2.2.2 envOn "vm1" "admin" false
      (vmFix PowerState.poweredOn) ⟨snapForestW, some "base"⟩
      (by decide) (by decide) rfl rfl rfl
      (by simp [findSnapshotByName, snapForestW]),
   (C8_find_snapshot "missing" snapForestW).2.2.2.1
      (by simp [findSnapshotByName, snapForestW])⟩

/-! ## C9 -/

/-- C9: the audit wrapper emits exactly one record per invocation regardless
of outcome, carrying the operation name, the elapsed duration and the outcome
("success", or "failed" with the error detail), returns the underlying outcome
unchanged, and its output does not depend on the audit sink's behavior — a
failing sink (the logging module swallows handler errors and is modelled as
returning a failure flag the wrapper ignores) can neither suppress nor alter
the operation's result or failure. -/
theorem C9_audit_exactly_once {β : Type} (op : String) (rt : Option String)
    (sink sink₂ : AuditRecord → Bool) (t d : ℚ) (r : Except VMErr β) :
    (audit_log_wrap op rt sink t d r).1 = r ∧
    ((audit_log_wrap op rt sink t d r).2).length = 1 ∧
    audit_log_wrap op rt sink t d r = audit_log_wrap op rt sink₂ t d r ∧
    (∀ v, r = Except.ok v →
      (audit_log_wrap op rt sink t d r).2 =
        [{ operation := op, resource_type := rt, status := "success", error := none,
           duration := d, timestamp := t + d }]) ∧
    (∀ e, r = Except.error e →
      (audit_log_wrap op rt sink t d r).2 =
        [{ operation := op, resource_type := rt, status := "failed",
           error := some e.message, duration := d, timestamp := t + d }]) := by
  cases r <;> simp [audit_log_wrap]

/-- Witness for C9 on a failed outcome. -/
theorem C9_audit_exactly_once_witness :
    (audit_log_wrap "delete_vm" (some "vm") (fun _ => false) 0 3
      (Except.error (VMErr.authorizationError "Insufficient permissions to delete VM") :
        Except VMErr (List (String × String)))).2 =
      [{ operation := "delete_vm", resource_type := some "vm", status := "failed",
         error := some "Insufficient permissions to delete VM",
         duration := 3, timestamp := 0 + 3 }] :=
  (C9_audit_exactly_once "delete_vm" (some "vm") (fun _ => false) (fun _ => false) 0 3
    (Except.error (VMErr.authorizationError "Insufficient permissions to delete VM"))).2.2.2.2
    (VMErr.authorizationError "Insufficient permissions to delete VM") rfl

/-! ## C10 -/

/-- C10: the default role capability sets are not monotone along
viewer < operator < admin: "vm:list" is granted to viewer but not to operator,
so with authorization enabled every operation gated on "vm:list" (list_vms,
get_vm_details, list_snapshots) fails with an authorization failure under role
"operator", while role "viewer" passes the same authorization check. -/
theorem C10_viewer_operator_not_monotone (env : ServiceEnv) (vm_name : String)
    (h : env.enable_rbac = true) :
    "vm:list" ∈ rolesGet "viewer" ∧
    "vm:list" ∉ rolesGet "operator" ∧
    check_permission true "viewer" "vm:list" = true ∧
    check_permission true "operator" "vm:list" = false ∧
    (list_vms_inner env "operator").1 =
      Except.error (VMErr.authorizationError "Insufficient permissions to list VMs") ∧
    (get_vm_details_inner env vm_name "operator").1 =
      Except.error (VMErr.authorizationError "Insufficient permissions to view VM details") ∧
    (list_snapshots_inner env vm_name "operator").1 =
      Except.error (VMErr.authorizationError "Insufficient permissions to list snapshots") := by
  have hc : check_permission true "operator" "vm:list" = false := by decide
  refine ⟨by decide, by decide, by decide, hc, ?_, ?_, ?_⟩
  · simp [list_vms_inner, h, hc]
  · simp [get_vm_details_inner, h, hc]
  · simp [list_snapshots_inner, h, hc]

/-- Witness for C10 at the concrete environment. -/
theorem C10_viewer_operator_not_monotone_witness :
    (list_vms_inner envOn "operator").1 =
      Except.error (VMErr.authorizationError "Insufficient permissions to list VMs") :=
  (C10_viewer_operator_not_monotone envOn "vm1" rfl).2.2.2.2.1

end VMwareMCP
